import Mathlib

/-!
Shallow embedding of the recommendation microservice (FastAPI + MongoDB):
`app/db.py` (RecommendationCRUD, ProductCRUD) and
`app/routes/recommendation.py` (the three route handlers), together with
theorems checking the natural-language specification against it.

The MongoDB gateway is opaque in the source, so it is modelled as a `Store`
value: an association list of product documents keyed by their `_id`, a list
of recommendation documents, and injectable driver failures (a `find` call
on the products collection may raise with a message, as may the single
`find` on the recommendations collection and the `insert_one`).  Python
floats are modelled as rationals, exceptions as `Except` with the exact
message strings the source builds, since `create_recommendation` dispatches
on substrings of those messages.
-/

namespace RecService

/-- A MongoDB `_id` value as used by this service: either a plain integer
primary key (bulk-loaded data) or a 12-byte ObjectId, represented by its
24-character lowercase hex rendering. -/
inductive Key where
  | intKey (n : Int)
  | oidKey (hex : String)
deriving DecidableEq

deriving instance DecidableEq for Except

/-- ASCII lowercasing of a string (the exception messages and hex ids this
service works with are ASCII). -/
def strLower (s : String) : String := ⟨s.data.map Char.toLower⟩

/-- Hexadecimal digit test, as accepted by `bson.ObjectId`. -/
def isHexChar (c : Char) : Bool :=
  c.isDigit || ('a' ≤ c && c ≤ 'f') || ('A' ≤ c && c ≤ 'F')

/-- Models `bson.ObjectId(s)` applied to a string: succeeds exactly on
24-character hex strings, returning the identifier normalized to lowercase
(ObjectId equality is on the decoded bytes), and raises `InvalidId`
otherwise. -/
def objectIdOfString (s : String) : Option String :=
  if s.length == 24 && s.data.all isHexChar then some (strLower s) else none

/-- Digit-run grammar of Python's `int()` literal body: nonempty digits with
single underscores allowed strictly between digits. -/
def pyDigits : List Char → Bool
  | [] => false
  | [c] => c.isDigit
  | c :: '_' :: rest => c.isDigit && pyDigits rest
  | c :: rest => c.isDigit && pyDigits rest

/-- Numeric value of a digit run (underscores skipped). -/
def digitsVal (cs : List Char) : Nat :=
  (cs.filter (fun c => c != '_')).foldl (fun a c => a * 10 + (c.toNat - 48)) 0

/-- Models Python `int(s)` on a string: optional surrounding whitespace,
optional sign, base-10 digits; `none` when `int` raises `ValueError`. -/
def pyParseInt (s : String) : Option Int :=
  match ((s.data.dropWhile Char.isWhitespace).reverse.dropWhile Char.isWhitespace).reverse with
  | '+' :: rest => if pyDigits rest then some (digitsVal rest : Int) else none
  | '-' :: rest => if pyDigits rest then some (-(digitsVal rest : Int)) else none
  | cs => if pyDigits cs then some (digitsVal cs : Int) else none

/-- A product document, minus its `_id` (which is the association key in the
store). Fields as read by the route handlers. -/
structure Product where
  name : String
  category : String
  price : ℚ
  description : Option String
  rating : Option ℚ
deriving DecidableEq

/-- A recommendation document with the fields the service reads and writes.
`type` and `category` are `Option` because the collection is schema-less;
documents created by this service always populate them. -/
structure RecDoc where
  _id : String
  product_id : String
  target_product_id : Option String
  score : ℚ
  reason : String
  type : Option String
  category : Option String
  created_at : String
deriving DecidableEq

/-- The opaque document-store gateway: data plus injectable driver failures.
`productFindFail k = some msg` means `find_one({"_id": k})` on the products
collection raises an exception with message `msg`; `recsFindFail` likewise
for the recommendations-collection `find`, and `insertResult` is the outcome
of `insert_one` on the recommendations collection. -/
structure Store where
  products : List (Key × Product)
  recs : List RecDoc
  productFindFail : Key → Option String
  recsFindFail : Option String
  insertResult : Except String String

/-- The product document whose `_id` equals `k`, if any (`_id` is unique, so
the first match is the match). -/
def lookupProduct (s : Store) (k : Key) : Option Product :=
  (s.products.find? (fun kv => kv.1 == k)).map (fun kv => kv.2)

/-- Models `db[PRODUCTS_COLLECTION].find_one` on key `k`: either the injected
driver failure or the matching document. -/
def findProduct (s : Store) (k : Key) : Except String (Option Product) :=
  match s.productFindFail k with
  | some msg => .error msg
  | none => .ok (lookupProduct s k)

/-- Embeds `ProductCRUD.get_product_by_id` (app/db.py:377-412): validates the raw id
with `ObjectId(product_id)` (no integer interpretation is attempted), raising
`"Invalid product ID format: .."` when that fails; then `find_one` on the
resolved key, raising `"Product not found with ID: .."` when no document
matches.  Driver failures are re-raised unchanged by the outer handler.
Returns the document (its `_id` alongside the fields). -/
def get_product_by_id (s : Store) (product_id : String) : Except String (Key × Product) :=
  match objectIdOfString product_id with
  | none => .error ("Invalid product ID format: " ++ product_id)
  | some h =>
    match findProduct s (.oidKey h) with
    | .error msg => .error msg
    | .ok none => .error ("Product not found with ID: " ++ product_id)
    | .ok (some p) => .ok (Key.oidKey h, p)

/-- Score-descending comparison used to model `.sort("score", -1)`. -/
def scoreDesc (a b : RecDoc) : Prop := b.score ≤ a.score

instance : DecidableRel scoreDesc :=
  fun a b => inferInstanceAs (Decidable (b.score ≤ a.score))

instance : IsTotal RecDoc scoreDesc := ⟨fun a b => le_total b.score a.score⟩

instance : IsTrans RecDoc scoreDesc := ⟨fun _ _ _ h1 h2 => le_trans h2 h1⟩

/-- Models a cursor `.sort` on score descending: the documents ordered by non-increasing
score (Mongo fixes no tie-break; any total order on equal scores is a
faithful model). -/
def sortByScoreDesc (l : List RecDoc) : List RecDoc := l.insertionSort scoreDesc

/-- Truthiness of an `Optional[str]` in Python: `None` and `""` are falsy. -/
def pyTruthyStr : Option String → Bool
  | none => false
  | some s => !(s == "")

/-- Embeds `RecommendationCRUD.get_recommendation_by_product` (app/db.py:164-198):
`find({"target_product_id": product_id}).sort("score", -1).limit(limit)`,
returning `[]` (not an error) when nothing matches; a driver failure is
wrapped into a `"Database error while ..."` exception. -/
def get_recommendation_by_product (s : Store) (product_id : String) (limit : Nat) :
    Except String (List RecDoc) :=
  match s.recsFindFail with
  | some msg => .error ("Database error while fetching product recommendations: " ++ msg)
  | none =>
    .ok ((sortByScoreDesc (s.recs.filter
      (fun d => d.target_product_id == some product_id))).take limit)

/-- Embeds `RecommendationCRUD.get_general_recommendations` (app/db.py:323-358):
filter `{"type": "general"}` plus `{"category": category}` when `category` is
truthy, sorted by score descending, capped at `limit`. -/
def get_general_recommendations (s : Store) (limit : Nat) (category : Option String) :
    Except String (List RecDoc) :=
  match s.recsFindFail with
  | some msg => .error ("Database error while fetching general recommendations: " ++ msg)
  | none =>
    .ok ((sortByScoreDesc (s.recs.filter (fun d =>
      d.type == some "general" &&
        (if pyTruthyStr category then d.category == category else true)))).take limit)

/-- Rendering of a key by Python `str(...)`: decimal for integers, the hex
string for ObjectIds. -/
def keyStr : Key → String
  | .intKey n => toString n
  | .oidKey h => h

/-- The `ProductInfo` response model (app/routes/recommendation.py:29-36). -/
structure ProductInfo where
  id : String
  name : String
  category : String
  price : ℚ
  description : Option String
  rating : Option ℚ
deriving DecidableEq

/-- The `RecommendationResponse` response model
(app/routes/recommendation.py:38-44). -/
structure RecommendationResponse where
  id : String
  product : ProductInfo
  score : ℚ
  reason : String
  created_at : String
deriving DecidableEq

/-- Builds the `ProductInfo` for a fetched product document. -/
def mkProductInfo (k : Key) (p : Product) : ProductInfo :=
  ⟨keyStr k, p.name, p.category, p.price, p.description, p.rating⟩

/-- Builds the enriched `RecommendationResponse` for a recommendation and the
product document fetched for its `product_id`. -/
def mkRecResponse (rec : RecDoc) (k : Key) (p : Product) : RecommendationResponse :=
  ⟨rec._id, mkProductInfo k p, rec.score, rec.reason, rec.created_at⟩

/-- A client-visible failure: HTTP status code and detail string. -/
abbrev HttpErr := Nat × String

/-- The enrichment loop of `get_recommendations`
(app/routes/recommendation.py:90-114): each recommendation's product is
fetched through `ProductCRUD.get_product_by_id`; on any exception the entry
is skipped (`except Exception: continue`) and the loop proceeds. -/
def enrichGeneralLoop (s : Store) : List RecDoc → List RecommendationResponse
  | [] => []
  | rec :: rest =>
    match get_product_by_id s rec.product_id with
    | .error _ => enrichGeneralLoop s rest
    | .ok (k, p) => mkRecResponse rec k p :: enrichGeneralLoop s rest

/-- Embeds the `GET /recommendations` handler (app/routes/recommendation.py:63-123):
fetches general recommendations, enriches them with the silent-skip loop;
any exception outside the loop becomes a 500. -/
def get_recommendations_route (s : Store) (limit : Nat) (category : Option String) :
    Except HttpErr (List RecommendationResponse) :=
  match get_general_recommendations s limit category with
  | .error _ => .error (500, "Internal server error")
  | .ok recs => .ok (enrichGeneralLoop s recs)

/-- The enrichment loop of `get_product_recommendations`
(app/routes/recommendation.py:180-209).  For each listed recommendation the
recommended product is fetched inline: the integer interpretation of
`product_id` first, falling back to ObjectId when `int()` raises; on the
fallback branch every exception yields `product_doc = None` (entry skipped),
but on the integer branch only `ValueError`/`TypeError` are caught, so a
driver failure from `find_one` escapes to the outer handler and aborts the
whole request with a 500. -/
def enrichProductRecLoop (s : Store) : List RecDoc → Except HttpErr (List RecommendationResponse)
  | [] => .ok []
  | rec :: rest =>
    match pyParseInt rec.product_id with
    | some n =>
      match findProduct s (.intKey n) with
      | .error _ => .error (500, "Internal server error")
      | .ok none => enrichProductRecLoop s rest
      | .ok (some p) =>
        (enrichProductRecLoop s rest).map (fun l => mkRecResponse rec (.intKey n) p :: l)
    | none =>
      match objectIdOfString rec.product_id with
      | none => enrichProductRecLoop s rest
      | some h =>
        match findProduct s (.oidKey h) with
        | .error _ => enrichProductRecLoop s rest
        | .ok none => enrichProductRecLoop s rest
        | .ok (some p) =>
          (enrichProductRecLoop s rest).map (fun l => mkRecResponse rec (.oidKey h) p :: l)

/-- The tail of `GET /recommendations/{product_id}`
(app/routes/recommendation.py:163-211) once the target product has been
fetched: 404 when no document matched, otherwise the targeted listing
(find on `target_product_id`, score descending, top 10; a driver failure
there reaches the outer handler as 500) followed by the enrichment loop. -/
def targetedAfterResolve (s : Store) (product_id : String) (tp : Option Product) :
    Except HttpErr (List RecommendationResponse) :=
  match tp with
  | none => .error (404, "Product not found")
  | some _ =>
    match s.recsFindFail with
    | some _ => .error (500, "Internal server error")
    | none =>
      enrichProductRecLoop s ((sortByScoreDesc (s.recs.filter
        (fun d => d.target_product_id == some product_id))).take 10)

/-- The resolution step of `GET /recommendations/{product_id}`
(app/routes/recommendation.py:148-162): `int(product_id)` first; on
`ValueError` the ObjectId fallback, where any exception — malformed id, but
also a driver failure of that `find_one` — yields 400; a driver failure on
the integer branch propagates to the outer handler as 500; then
`targetedAfterResolve` on the fetched target product. -/
def get_product_recommendations_route (s : Store) (product_id : String) :
    Except HttpErr (List RecommendationResponse) :=
  match pyParseInt product_id with
  | some n =>
    match findProduct s (.intKey n) with
    | .error _ => .error (500, "Internal server error")
    | .ok tp => targetedAfterResolve s product_id tp
  | none =>
    match objectIdOfString product_id with
    | none => .error (400, "Invalid product ID format")
    | some h =>
      match findProduct s (.oidKey h) with
      | .error _ => .error (400, "Invalid product ID format")
      | .ok tp => targetedAfterResolve s product_id tp

/-- The `CreateRecommendationRequest` body model
(app/routes/recommendation.py:46-51): `product_id : str`,
`target_product_id : Optional[str] = None`, `score : float` with
`ge=0.0, le=1.0`, `reason : str` with `min_length=1`. -/
structure CreateRecommendationRequest where
  product_id : String
  target_product_id : Option String
  score : ℚ
  reason : String
deriving DecidableEq

/-- Result of a successful `POST /recommendations`: the generated id, the
success message, the document as persisted in the store, and the enriched
response record. -/
structure CreatedRecommendation where
  id : String
  message : String
  doc : RecDoc
  response : RecommendationResponse
deriving DecidableEq

/-- Occurrence of `needle` at some position of `hay`. -/
def listContains (needle : List Char) : List Char → Bool
  | [] => needle.isPrefixOf []
  | c :: rest => needle.isPrefixOf (c :: rest) || listContains needle rest

/-- Python substring test `needle in hay`. -/
def strContains (hay needle : String) : Bool :=
  listContains needle.toList hay.toList

/-- The error dispatch of `create_recommendation` on a failed product lookup
(app/routes/recommendation.py:245-260 and 266-281): the exception message is
lowercased and matched for the substring `"not found"`, then `"invalid"`;
anything else becomes the 500 response. -/
def classifyLookupFailure (msg : String) (notFoundResp invalidResp otherResp : HttpErr) :
    HttpErr :=
  if strContains (strLower msg) "not found" then notFoundResp
  else if strContains (strLower msg) "invalid" then invalidResp
  else otherResp

/-- The target-product validation step of `create_recommendation`
(app/routes/recommendation.py:262-281): skipped entirely when
`target_product_id` is falsy (`None` or the empty string); otherwise the
target is looked up through `ProductCRUD.get_product_by_id` and failures are
dispatched by message substring exactly like the recommended product's. -/
def validate_target (s : Store) (target : Option String) : Except HttpErr Unit :=
  if pyTruthyStr target then
    match target with
    | none => .ok ()
    | some t =>
      match get_product_by_id s t with
      | .error msg =>
        .error (classifyLookupFailure msg
          (404, "Target product not found")
          (400, "Invalid target product ID format")
          (500, "Error validating target product"))
      | .ok _ => .ok ()
  else .ok ()

/-- Embeds the `POST /recommendations` handler body (app/routes/recommendation.py:226-329),
after request-model validation.  Validates the recommended product through
`ProductCRUD.get_product_by_id`, dispatching failures by message substring;
then validates the target through `validate_target`; then the document is
built — `type` derived from the truthiness of `target_product_id`,
`created_at` stamped with `now`, `category` copied from the recommended
product — and inserted; an insert failure reaches the outer handler as a
500. -/
def create_recommendation_route (s : Store) (now : String)
    (request : CreateRecommendationRequest) : Except HttpErr CreatedRecommendation :=
  match get_product_by_id s request.product_id with
  | .error msg =>
    .error (classifyLookupFailure msg
      (404, "Recommended product not found")
      (400, "Invalid product ID format")
      (500, "Error validating product"))
  | .ok (k, recommended_product) =>
    match validate_target s request.target_product_id with
    | .error e => .error e
    | .ok _ =>
      match s.insertResult with
      | .error _ => .error (500, "Internal server error")
      | .ok newId =>
        let doc : RecDoc :=
          { _id := newId
            product_id := request.product_id
            target_product_id := request.target_product_id
            score := request.score
            reason := request.reason
            type := some (if pyTruthyStr request.target_product_id then "specific" else "general")
            category := some recommended_product.category
            created_at := now }
        .ok { id := newId
              message := "Recommendation created successfully"
              doc := doc
              response := ⟨newId, mkProductInfo k recommended_product,
                request.score, request.reason, now⟩ }

/-- Models FastAPI's deserialization of the request body into
`CreateRecommendationRequest`: the pydantic constraints declared in the
source (`score` with `ge=0.0, le=1.0`, `reason` with `min_length=1`) are
checked before the handler runs; `none` means the framework rejects the
request. -/
def fastapi_validate_create (product_id : String) (target_product_id : Option String)
    (score : ℚ) (reason : String) : Option CreateRecommendationRequest :=
  if 0 ≤ score ∧ score ≤ 1 ∧ 1 ≤ reason.length then
    some ⟨product_id, target_product_id, score, reason⟩
  else none

/-- Full `POST /recommendations` entry point: FastAPI validates the body
against `CreateRecommendationRequest` and answers 422 Unprocessable Entity
(its default for request-model validation failures; no custom handler is
installed in app/main.py) without invoking the route handler; otherwise the
handler runs. -/
def post_recommendations (s : Store) (now : String) (product_id : String)
    (target_product_id : Option String) (score : ℚ) (reason : String) :
    Except HttpErr CreatedRecommendation :=
  match fastapi_validate_create product_id target_product_id score reason with
  | none => .error (422, "Unprocessable Entity")
  | some req => create_recommendation_route s now req

/-- A value in a schema-less update document. -/
inductive DVal where
  | vStr (s : String)
  | vNum (q : ℚ)
  | vNull
deriving DecidableEq

/-- A flat document, as passed to `update_one`'s `$set`: an ordered key-value
map (Python dict). -/
abbrev UDoc := List (String × DVal)

/-- Python `d[k] = v` on an ordered dict: replaces the value in place when
the key exists, appends otherwise. -/
def setField (d : UDoc) (k : String) (v : DVal) : UDoc :=
  if d.any (fun kv => kv.1 == k) then
    d.map (fun kv => if kv.1 == k then (k, v) else kv)
  else d ++ [(k, v)]

/-- Field lookup in a flat document (first occurrence of the key). -/
def lookupField : UDoc → String → Option DVal
  | [], _ => none
  | kv :: rest, k => if kv.1 == k then some kv.2 else lookupField rest k

/-- A stored recommendation document for the update operation: its ObjectId
(lowercase hex) and its fields. -/
structure URec where
  oid : String
  fields : UDoc
deriving DecidableEq

/-- Mongo `$set` with a flat document: each key of the patch is written into
the document in order. -/
def applySet (d : UDoc) (patch : UDoc) : UDoc :=
  patch.foldl (fun acc kv => setField acc kv.1 kv.2) d

/-- Models `update_one` with an id filter and a `$set` patch applied to the collection:
the first (unique) document with that `_id` is patched. -/
def updateFirst : List URec → String → UDoc → List URec
  | [], _, _ => []
  | r :: rest, oid, patch =>
    if r.oid == oid then { r with fields := applySet r.fields patch } :: rest
    else r :: updateFirst rest oid patch

/-- Embeds `RecommendationCRUD.update_recommendation` (app/db.py:241-284): validates
the id with `ObjectId` (raising `"Invalid recommendation ID format: .."`),
stamps `update_data["updated_at"]` with the current time, runs `update_one`,
and raises `"Recommendation not found with ID: .."` exactly when
`matched_count == 0`; on success returns the updated collection (the source
returns `True`; the collection state is made explicit here). -/
def update_recommendation (recsCol : List URec) (recommendation_id : String)
    (update_data : UDoc) (now : String) : Except String (List URec) :=
  match objectIdOfString recommendation_id with
  | none => .error ("Invalid recommendation ID format: " ++ recommendation_id)
  | some oid =>
    let data := setField update_data "updated_at" (.vStr now)
    if recsCol.any (fun r => r.oid == oid) then .ok (updateFirst recsCol oid data)
    else .error ("Recommendation not found with ID: " ++ recommendation_id)

/-! Concrete stores used to instantiate the theorems. -/

/-- A sample product stored under an ObjectId key. -/
def prodA : Product := ⟨"A", "x", 10, none, none⟩

/-- A sample product stored under an integer key. -/
def prodB : Product := ⟨"B", "x", 20, none, none⟩

/-- A well-formed ObjectId hex string. -/
def oidA : String := "aaaaaaaaaaaaaaaaaaaaaaaa"

/-- The id handed out by a successful insert. -/
def oidNew : String := "bbbbbbbbbbbbbbbbbbbbbbbb"

/-- A fault-free store with one ObjectId-keyed and one integer-keyed
product and no recommendations. -/
def baseStore : Store :=
  ⟨[(.oidKey oidA, prodA), (.intKey 1, prodB)], [], fun _ => none, none, .ok oidNew⟩

/-- A fault-free store holding a product under the integer key 999. -/
def store999 : Store := ⟨[(.intKey 999, prodB)], [], fun _ => none, none, .ok oidNew⟩

/-- The created record for the C5 witness request (target present and
non-empty, hence a specific recommendation). -/
def c5WitnessResult : CreatedRecommendation :=
  { id := oidNew
    message := "Recommendation created successfully"
    doc := ⟨oidNew, oidA, some oidA, 1, "r", some "specific", some "x", "T0"⟩
    response := ⟨oidNew, ⟨oidA, "A", "x", 10, none, none⟩, 1, "r", "T0"⟩ }

/-- The created record for the C10 witness request (empty-string target). -/
def c10WitnessResult : CreatedRecommendation :=
  { id := oidNew
    message := "Recommendation created successfully"
    doc := ⟨oidNew, oidA, some "", 1, "r", some "general", some "x", "T0"⟩
    response := ⟨oidNew, ⟨oidA, "A", "x", 10, none, none⟩, 1, "r", "T0"⟩ }

/-- A specific (targeted) recommendation document. -/
def recSpec : RecDoc :=
  ⟨"cccccccccccccccccccccccc", "2", some "1", 9/10, "specific rec", some "specific",
    some "x", "T0"⟩

/-- A general recommendation document. -/
def recGen : RecDoc :=
  ⟨"dddddddddddddddddddddddd", oidA, none, 1/2, "general rec", some "general",
    some "x", "T0"⟩

/-- A fault-free store with both kinds of recommendations. -/
def recStore : Store :=
  ⟨[(.oidKey oidA, prodA), (.intKey 1, prodB)], [recSpec, recGen],
    fun _ => none, none, .ok oidNew⟩

/-- The value the general-listing enrichment keeps for one recommendation:
`none` exactly when `ProductCRUD.get_product_by_id` fails on its
`product_id` (not found, invalid id, or driver failure). -/
def enrichGeneralOk (s : Store) (rec : RecDoc) : Option RecommendationResponse :=
  match get_product_by_id s rec.product_id with
  | .error _ => none
  | .ok kp => some (mkRecResponse rec kp.1 kp.2)

/-- The value the targeted-listing enrichment keeps for one recommendation
on a fault-free store: `none` exactly when the inline dual-format lookup of
its `product_id` finds no product (unparseable id or no matching document). -/
def enrichProductRecOk (s : Store) (rec : RecDoc) : Option RecommendationResponse :=
  match pyParseInt rec.product_id with
  | some n => (lookupProduct s (.intKey n)).map (mkRecResponse rec (.intKey n))
  | none =>
    match objectIdOfString rec.product_id with
    | none => none
    | some h => (lookupProduct s (.oidKey h)).map (mkRecResponse rec (.oidKey h))

/-- A recommendation whose `product_id` refers to a missing product under
the integer interpretation. -/
def recBroken : RecDoc :=
  ⟨"eeeeeeeeeeeeeeeeeeeeeeee", "7", some "1", 1, "r", some "specific", some "x", "T0"⟩

/-- A store in which fetching product 7 (referenced by `recBroken`) raises a
driver failure. -/
def faultStore : Store :=
  ⟨[(.intKey 1, prodB)], [recBroken],
    fun k => if k = Key.intKey 7 then some "socket timeout" else none, none, .ok oidNew⟩

/-- The same store without the injected failure. -/
def noFaultStore : Store :=
  ⟨[(.intKey 1, prodB)], [recBroken], fun _ => none, none, .ok oidNew⟩

/-- A stored recommendation document for the C9 witness. -/
def urec1 : URec := ⟨oidA, [("score", .vNum 1)]⟩


/-- C1: the claim says `get_product_by_id` resolves base-10 integer strings
to integer native keys.  It does not: the accessor only attempts the
ObjectId interpretation.  Here `"999"` parses as a base-10 integer and a
product document with native key 999 exists, yet the lookup fails with the
invalid-format error. -/
theorem c1_counterexample :
    pyParseInt "999" = some 999
    ∧ lookupProduct store999 (Key.intKey 999) = some prodB
    ∧ get_product_by_id store999 "999" = .error "Invalid product ID format: 999" := by
  refine ⟨by decide, by decide, by decide⟩

/-- C1 (amended): `get_product_by_id` attempts only the 24-character
hexadecimal ObjectId interpretation.  Any raw id that is not a 24-hex string
(including every plain integer string such as "999") fails with the
invalid-format error; when the id is a 24-hex string and the store does not
fault, the accessor returns the document under the decoded identifier, or
fails with the not-found error when no document has that key. -/
theorem c1_product_accessor_objectid_only (s : Store) (product_id : String) :
    (objectIdOfString product_id = none →
      get_product_by_id s product_id = .error ("Invalid product ID format: " ++ product_id))
    ∧ (∀ h, objectIdOfString product_id = some h →
        s.productFindFail (.oidKey h) = none →
        get_product_by_id s product_id =
          match lookupProduct s (.oidKey h) with
          | some p => .ok (Key.oidKey h, p)
          | none => .error ("Product not found with ID: " ++ product_id)) := by
  constructor
  · intro h0
    simp [get_product_by_id, h0]
  · intro h h0 hf
    simp only [get_product_by_id, h0, findProduct, hf]
    cases lookupProduct s (.oidKey h) <;> rfl

/-- C1 witness: the amended theorem applied to concrete raw ids on a
concrete store, one malformed and one well-formed but absent. -/
theorem c1_witness :
    get_product_by_id baseStore "zz" = .error "Invalid product ID format: zz"
    ∧ get_product_by_id baseStore "cccccccccccccccccccccccc" =
        .error "Product not found with ID: cccccccccccccccccccccccc" := by
  refine ⟨(c1_product_accessor_objectid_only baseStore "zz").1 (by decide), ?_⟩
  have h := (c1_product_accessor_objectid_only baseStore
    "cccccccccccccccccccccccc").2 "cccccccccccccccccccccccc" (by decide) (by decide)
  rw [h]
  decide

/-- C2: the claim says a create request with `product_id = "999"` yields
404 "Recommended product not found".  It yields 400: `"999"` is not a valid
ObjectId string, so the lookup raises the invalid-format message, which the
route maps to 400. -/
theorem c2_counterexample :
    create_recommendation_route baseStore "T0" ⟨"999", none, 1, "r"⟩ =
      .error (400, "Invalid product ID format")
    ∧ ((400 : Nat), "Invalid product ID format") ≠
        ((404 : Nat), "Recommended product not found") :=
  ⟨by decide, by decide⟩

/-- C2 (amended): when the recommended-product lookup fails, the route
classifies the failure by the exception message: 404 "Recommended product
not found" when the lowercased message contains "not found" (which every
not-found message does), else 400 when it contains "invalid", else 500.
A request with `product_id = "999"` therefore fails the ObjectId validation
and receives 400, not 404. -/
theorem c2_create_error_mapping (s : Store) (now : String)
    (request : CreateRecommendationRequest) (msg : String)
    (h : get_product_by_id s request.product_id = .error msg) :
    create_recommendation_route s now request =
      .error (classifyLookupFailure msg
        (404, "Recommended product not found")
        (400, "Invalid product ID format")
        (500, "Error validating product")) := by
  simp [create_recommendation_route, h]

/-- C2 witness: a well-formed ObjectId naming no document routes to 404 with
the claimed detail string. -/
theorem c2_witness :
    create_recommendation_route baseStore "T0"
      ⟨"cccccccccccccccccccccccc", none, 1, "r"⟩ =
      .error (404, "Recommended product not found") := by
  have h := c2_create_error_mapping baseStore "T0"
    ⟨"cccccccccccccccccccccccc", none, 1, "r"⟩
    "Product not found with ID: cccccccccccccccccccccccc" (by decide)
  rw [h]
  decide

/-- C5: the claim says every successfully created recommendation with a
non-null `target_product_id` is stored with `type = "specific"`.  The route
tests Python truthiness, not nullness: with the non-null target `""` the
stored document keeps `target_product_id = ""` but gets `type = "general"`. -/
theorem c5_counterexample :
    (create_recommendation_route baseStore "T0" ⟨oidA, some "", 1, "r"⟩).map
        (fun r => (r.doc.type, r.doc.target_product_id)) =
      .ok (some "general", some "")
    ∧ (some "" : Option String) ≠ none :=
  ⟨by decide, by decide⟩

/-- C5 (amended): for every successfully created recommendation the stored
`type` equals `"general"` exactly when `target_product_id` is absent or the
empty string (Python-falsy), and `"specific"` exactly when it is a non-empty
string; `type` is a function of the request's `target_product_id`, which is
stored unchanged, and is never settable independently. -/
theorem c5_type_derived_from_target (s : Store) (now : String)
    (request : CreateRecommendationRequest) (r : CreatedRecommendation)
    (h : create_recommendation_route s now request = .ok r) :
    r.doc.target_product_id = request.target_product_id
    ∧ r.doc.type =
        some (if pyTruthyStr request.target_product_id then "specific" else "general")
    ∧ (r.doc.type = some "general" ↔
        (request.target_product_id = none ∨ request.target_product_id = some ""))
    ∧ (r.doc.type = some "specific" ↔
        ∃ t, request.target_product_id = some t ∧ t ≠ "") := by
  unfold create_recommendation_route at h
  split at h
  · exact absurd h (by simp)
  · split at h
    · exact absurd h (by simp)
    · split at h
      · exact absurd h (by simp)
      · rw [Except.ok.injEq] at h
        subst h
        refine ⟨rfl, rfl, ?_, ?_⟩
        · rcases request.target_product_id with _ | t
          · simp [pyTruthyStr]
          · by_cases ht : t = "" <;> simp [pyTruthyStr, ht]
        · rcases request.target_product_id with _ | t
          · simp [pyTruthyStr]
          · by_cases ht : t = "" <;> simp [pyTruthyStr, ht]

/-- C5 witness: the amended theorem applied to a concrete successful
creation with a non-empty target. -/
theorem c5_witness :
    create_recommendation_route baseStore "T0" ⟨oidA, some oidA, 1, "r"⟩ =
      .ok c5WitnessResult
    ∧ c5WitnessResult.doc.type = some "specific" := by
  have h : create_recommendation_route baseStore "T0" ⟨oidA, some oidA, 1, "r"⟩ =
      .ok c5WitnessResult := by decide
  have h2 := (c5_type_derived_from_target baseStore "T0"
    ⟨oidA, some oidA, 1, "r"⟩ c5WitnessResult h).2.1
  exact ⟨h, by simpa [pyTruthyStr] using h2⟩

/-- C10: a create request whose `target_product_id` is the empty string is
processed exactly like one with no target at all — the target-validation
step is skipped (the outcome is the same for every store, in particular ones
in which any target lookup would fail) and the stored document is the one of
the no-target request except that the raw `""` is kept in its
`target_product_id` field; in particular its `type` is `"general"`. -/
theorem c10_empty_target_treated_as_absent (s : Store) (now : String)
    (product_id : String) (score : ℚ) (reason : String) :
    create_recommendation_route s now ⟨product_id, some "", score, reason⟩ =
      (create_recommendation_route s now ⟨product_id, none, score, reason⟩).map
        (fun r => { r with doc := { r.doc with target_product_id := some "" } })
    ∧ ∀ r, create_recommendation_route s now ⟨product_id, some "", score, reason⟩ = .ok r →
        r.doc.type = some "general" := by
  constructor
  · unfold create_recommendation_route
    cases hg : get_product_by_id s product_id with
    | error msg => simp [hg, Except.map]
    | ok kp =>
      simp only [hg]
      have hv : validate_target s (some "") = .ok () := by
        simp [validate_target, pyTruthyStr]
      have hv2 : validate_target s none = .ok () := by
        simp [validate_target, pyTruthyStr]
      rw [hv, hv2]
      cases hi : s.insertResult with
      | error e => simp [Except.map]
      | ok newId => simp [Except.map, pyTruthyStr]
  · intro r h
    unfold create_recommendation_route at h
    split at h
    · exact absurd h (by simp)
    · split at h
      · exact absurd h (by simp)
      · split at h
        · exact absurd h (by simp)
        · rw [Except.ok.injEq] at h
          subst h
          simp [pyTruthyStr]

/-- C10 witness: the theorem applied to a concrete empty-string-target
request that succeeds. -/
theorem c10_witness :
    c10WitnessResult.doc.type = some "general" := by
  have h : create_recommendation_route baseStore "T0" ⟨oidA, some "", 1, "r"⟩ =
      .ok c10WitnessResult := by decide
  exact (c10_empty_target_treated_as_absent baseStore "T0" oidA 1 "r").2
    c10WitnessResult h

/-- C8: the claim says an out-of-range score is rejected with 400.  The
pydantic constraints on `CreateRecommendationRequest` do reject it before
the handler (and hence the store) is reached, but FastAPI's default response
for request-model validation failures is 422, not 400. -/
theorem c8_counterexample :
    post_recommendations baseStore "T0" "1" none (3/2) "r" =
      .error (422, "Unprocessable Entity")
    ∧ (422 : Nat) ≠ 400 := by
  constructor
  · unfold post_recommendations fastapi_validate_create
    have hnot : ¬((0 : ℚ) ≤ 3/2 ∧ (3/2 : ℚ) ≤ 1 ∧ 1 ≤ ("r" : String).length) := by
      rintro ⟨-, h, -⟩
      norm_num at h
    simp [hnot]
  · decide

/-- C8 (amended): every create request whose score lies outside [0,1] or
whose reason is empty is rejected by the request-model validation with a
client 422 (FastAPI's default for body-validation failures), before any
store operation: the store `s` is universally quantified and the response is
a constant independent of it. -/
theorem c8_validation_rejects_before_store (s : Store) (now : String)
    (product_id : String) (target : Option String) (score : ℚ) (reason : String)
    (hbad : score < 0 ∨ 1 < score ∨ reason = "") :
    post_recommendations s now product_id target score reason =
      .error (422, "Unprocessable Entity") := by
  unfold post_recommendations fastapi_validate_create
  have hnot : ¬(0 ≤ score ∧ score ≤ 1 ∧ 1 ≤ reason.length) := by
    rcases hbad with h | h | h
    · exact fun hc => absurd hc.1 (not_le.mpr h)
    · exact fun hc => absurd hc.2.1 (not_le.mpr h)
    · exact fun hc => absurd hc.2.2 (by rw [h]; decide)
  simp [hnot]

/-- C8 witness: the amended theorem applied to a concrete request with an
empty reason, on a concrete store. -/
theorem c8_witness :
    post_recommendations baseStore "T0" "1" none 1 "" =
      .error (422, "Unprocessable Entity") :=
  c8_validation_rejects_before_store baseStore "T0" "1" none 1 "" (.inr (.inr rfl))

/-- C6 (confirmed): on a store whose recommendations query does not fault,
`get_recommendation_by_product` succeeds with a list containing only
documents whose `target_product_id` equals the requested id exactly, ordered
by non-increasing score, and that list is empty — not an error — when no
document matches. -/
theorem c6_list_by_target (s : Store) (X : String) (limit : Nat)
    (hr : s.recsFindFail = none) :
    ∃ l, get_recommendation_by_product s X limit = .ok l
      ∧ (∀ d ∈ l, d.target_product_id = some X)
      ∧ l.Sorted scoreDesc
      ∧ ((∀ d ∈ s.recs, d.target_product_id ≠ some X) → l = []) := by
  refine ⟨(sortByScoreDesc (s.recs.filter
      (fun d => d.target_product_id == some X))).take limit,
    by simp only [get_recommendation_by_product, hr], ?_, ?_, ?_⟩
  · intro d hd
    have h1 := List.mem_of_mem_take hd
    rw [sortByScoreDesc, List.mem_insertionSort] at h1
    simpa using (List.mem_filter.mp h1).2
  · exact List.Pairwise.sublist (List.take_sublist _ _)
      (List.sorted_insertionSort scoreDesc _)
  · intro hnone
    have hf : s.recs.filter (fun d => d.target_product_id == some X) = [] := by
      rw [List.filter_eq_nil_iff]
      intro a ha
      simpa using hnone a ha
    rw [hf]
    simp [sortByScoreDesc]

/-- C6 witness: the theorem applied to a concrete fault-free store. -/
theorem c6_witness :
    ∃ l, get_recommendation_by_product recStore "1" 10 = .ok l
      ∧ (∀ d ∈ l, d.target_product_id = some "1")
      ∧ l.Sorted scoreDesc
      ∧ ((∀ d ∈ recStore.recs, d.target_product_id ≠ some "1") → l = []) :=
  c6_list_by_target recStore "1" 10 rfl

/-- C7 (confirmed): on a store whose recommendations query does not fault,
`get_general_recommendations` succeeds, returns only documents whose `type`
field equals `"general"` (for every category filter), sorted by
non-increasing score, with at most `limit` entries. -/
theorem c7_list_general (s : Store) (limit : Nat) (category : Option String)
    (hr : s.recsFindFail = none) :
    ∃ l, get_general_recommendations s limit category = .ok l
      ∧ (∀ d ∈ l, d.type = some "general")
      ∧ l.Sorted scoreDesc
      ∧ l.length ≤ limit := by
  refine ⟨(sortByScoreDesc (s.recs.filter (fun d =>
      d.type == some "general" &&
        (if pyTruthyStr category then d.category == category else true)))).take limit,
    by simp only [get_general_recommendations, hr], ?_, ?_, ?_⟩
  · intro d hd
    have h1 := List.mem_of_mem_take hd
    rw [sortByScoreDesc, List.mem_insertionSort] at h1
    have h2 := (List.mem_filter.mp h1).2
    rw [Bool.and_eq_true] at h2
    simpa using h2.1
  · exact List.Pairwise.sublist (List.take_sublist _ _)
      (List.sorted_insertionSort scoreDesc _)
  · rw [List.length_take]
    exact min_le_left _ _

/-- C7 witness: the theorem applied to a concrete fault-free store with a
category filter present. -/
theorem c7_witness :
    ∃ l, get_general_recommendations recStore 10 (some "x") = .ok l
      ∧ (∀ d ∈ l, d.type = some "general")
      ∧ l.Sorted scoreDesc
      ∧ l.length ≤ 10 :=
  c7_list_general recStore 10 (some "x") rfl

/-- On any store, the general-listing enrichment loop never fails: it is the
`filterMap` that keeps exactly the entries whose product fetch succeeds. -/
theorem enrichGeneralLoop_eq_filterMap (s : Store) :
    ∀ l : List RecDoc, enrichGeneralLoop s l = l.filterMap (enrichGeneralOk s)
  | [] => rfl
  | rec :: rest => by
    cases hg : get_product_by_id s rec.product_id with
    | error msg =>
      simp [enrichGeneralLoop, enrichGeneralOk, hg,
        enrichGeneralLoop_eq_filterMap s rest]
    | ok kp =>
      simp [enrichGeneralLoop, enrichGeneralOk, hg,
        enrichGeneralLoop_eq_filterMap s rest]

/-- On a store whose product lookups do not fault, the targeted-listing
enrichment loop never aborts: it is the `filterMap` that keeps exactly the
entries whose product lookup finds a document. -/
theorem enrichProductRecLoop_of_noFault (s : Store)
    (hp : ∀ k, s.productFindFail k = none) :
    ∀ l : List RecDoc, enrichProductRecLoop s l = .ok (l.filterMap (enrichProductRecOk s))
  | [] => rfl
  | rec :: rest => by
    have hrest := enrichProductRecLoop_of_noFault s hp rest
    cases hn : pyParseInt rec.product_id with
    | some n =>
      have hf : findProduct s (.intKey n) = .ok (lookupProduct s (.intKey n)) := by
        simp [findProduct, hp]
      cases hl : lookupProduct s (.intKey n) with
      | none => simp [enrichProductRecLoop, enrichProductRecOk, hn, hf, hl, hrest]
      | some p =>
        simp [enrichProductRecLoop, enrichProductRecOk, hn, hf, hl, hrest, Except.map]
    | none =>
      cases ho : objectIdOfString rec.product_id with
      | none => simp [enrichProductRecLoop, enrichProductRecOk, hn, ho, hrest]
      | some h =>
        have hf : findProduct s (.oidKey h) = .ok (lookupProduct s (.oidKey h)) := by
          simp [findProduct, hp]
        cases hl : lookupProduct s (.oidKey h) with
        | none => simp [enrichProductRecLoop, enrichProductRecOk, hn, ho, hf, hl, hrest]
        | some p =>
          simp [enrichProductRecLoop, enrichProductRecOk, hn, ho, hf, hl, hrest, Except.map]

/-- C3 (confirmed): on a fault-free store, `GET /recommendations/{pid}`
answers 400 when `pid` parses neither as an integer nor as an ObjectId; 404
when it parses (integer interpretation first) but the resolved key matches
no product document; and 200 with a list — empty, not 404, when the product
has no targeting recommendations — when the product exists. -/
theorem c3_targeted_route_statuses (s : Store) (product_id : String)
    (hp : ∀ k, s.productFindFail k = none) (hr : s.recsFindFail = none) :
    (pyParseInt product_id = none → objectIdOfString product_id = none →
      get_product_recommendations_route s product_id =
        .error (400, "Invalid product ID format"))
    ∧ (∀ n, pyParseInt product_id = some n → lookupProduct s (.intKey n) = none →
      get_product_recommendations_route s product_id = .error (404, "Product not found"))
    ∧ (∀ h, pyParseInt product_id = none → objectIdOfString product_id = some h →
      lookupProduct s (.oidKey h) = none →
      get_product_recommendations_route s product_id = .error (404, "Product not found"))
    ∧ (∀ n p, pyParseInt product_id = some n → lookupProduct s (.intKey n) = some p →
      ∃ l, get_product_recommendations_route s product_id = .ok l
        ∧ ((∀ d ∈ s.recs, d.target_product_id ≠ some product_id) → l = []))
    ∧ (∀ h p, pyParseInt product_id = none → objectIdOfString product_id = some h →
      lookupProduct s (.oidKey h) = some p →
      ∃ l, get_product_recommendations_route s product_id = .ok l
        ∧ ((∀ d ∈ s.recs, d.target_product_id ≠ some product_id) → l = [])) := by
  have listingEmpty : (∀ d ∈ s.recs, d.target_product_id ≠ some product_id) →
      ((sortByScoreDesc (s.recs.filter
        (fun d => d.target_product_id == some product_id))).take 10).filterMap
        (enrichProductRecOk s) = [] := by
    intro hnone
    have hf : s.recs.filter (fun d => d.target_product_id == some product_id) = [] := by
      rw [List.filter_eq_nil_iff]
      intro a ha
      simpa using hnone a ha
    rw [hf]
    simp [sortByScoreDesc]
  refine ⟨?_, ?_, ?_, ?_, ?_⟩
  · intro h1 h2
    simp [get_product_recommendations_route, h1, h2]
  · intro n h1 h2
    simp [get_product_recommendations_route, h1, findProduct, hp, h2, targetedAfterResolve]
  · intro h h1 h2 h3
    simp [get_product_recommendations_route, h1, h2, findProduct, hp, h3,
      targetedAfterResolve]
  · intro n p h1 h2
    refine ⟨_, ?_, listingEmpty⟩
    simp only [get_product_recommendations_route, h1, findProduct, hp, h2,
      targetedAfterResolve, hr]
    exact enrichProductRecLoop_of_noFault s hp _
  · intro h p h1 h2 h3
    refine ⟨_, ?_, listingEmpty⟩
    simp only [get_product_recommendations_route, h1, h2, findProduct, hp, h3,
      targetedAfterResolve, hr]
    exact enrichProductRecLoop_of_noFault s hp _

/-- C3 witness: the 200 branch of the theorem at a concrete integer-keyed
product with no targeting recommendations, on a fault-free store. -/
theorem c3_witness :
    ∃ l, get_product_recommendations_route baseStore "1" = .ok l
      ∧ ((∀ d ∈ baseStore.recs, d.target_product_id ≠ some "1") → l = []) :=
  (c3_targeted_route_statuses baseStore "1" (fun _ => rfl) rfl).2.2.2.1 1 prodB
    (by decide) (by decide)

/-- C4: the claim says a recommendation whose referenced product cannot be
fetched (not found, invalid id, or storage failure) is omitted and the
listing still succeeds.  In the product-specific listing a storage failure
on the integer branch is not caught by the per-entry handler, which catches
only `ValueError`/`TypeError`: with a driver failure injected for product 7
the whole request fails with 500, while the same store without the fault
simply drops the entry and succeeds. -/
theorem c4_counterexample :
    get_product_recommendations_route faultStore "1" =
      .error (500, "Internal server error")
    ∧ get_product_recommendations_route noFaultStore "1" = .ok []
    ∧ faultStore.recs = [recBroken]
    ∧ pyParseInt recBroken.product_id = some 7
    ∧ faultStore.productFindFail (Key.intKey 7) = some "socket timeout" :=
  ⟨by decide, by decide, rfl, by decide, by decide⟩

/-- C4 (amended): a recommendation whose referenced product cannot be
fetched is omitted and the listing still succeeds, with one exception.  The
general listing never fails on enrichment, whatever the per-entry failure
(the loop is a pure `filterMap`, on every store).  The product-specific
listing drops entries whose lookup finds nothing (unparseable id or missing
document) and succeeds — provided product lookups do not fault; a driver
failure on the integer branch instead aborts the whole request with 500
(see the counterexample). -/
theorem c4_enrichment_drops_broken_references (s : Store) :
    (∀ rec msg, get_product_by_id s rec.product_id = .error msg →
      enrichGeneralOk s rec = none)
    ∧ (∀ limit category L, get_general_recommendations s limit category = .ok L →
      get_recommendations_route s limit category = .ok (L.filterMap (enrichGeneralOk s)))
    ∧ (∀ product_id n p, (∀ k, s.productFindFail k = none) → s.recsFindFail = none →
      pyParseInt product_id = some n → lookupProduct s (.intKey n) = some p →
      get_product_recommendations_route s product_id =
        .ok (((sortByScoreDesc (s.recs.filter
          (fun d => d.target_product_id == some product_id))).take 10).filterMap
          (enrichProductRecOk s)))
    ∧ (∀ product_id h p, (∀ k, s.productFindFail k = none) → s.recsFindFail = none →
      pyParseInt product_id = none → objectIdOfString product_id = some h →
      lookupProduct s (.oidKey h) = some p →
      get_product_recommendations_route s product_id =
        .ok (((sortByScoreDesc (s.recs.filter
          (fun d => d.target_product_id == some product_id))).take 10).filterMap
          (enrichProductRecOk s))) := by
  refine ⟨?_, ?_, ?_, ?_⟩
  · intro rec msg hmsg
    simp [enrichGeneralOk, hmsg]
  · intro limit category L hL
    simp [get_recommendations_route, hL, enrichGeneralLoop_eq_filterMap]
  · intro product_id n p hp hr h1 h2
    simp only [get_product_recommendations_route, h1, findProduct, hp, h2,
      targetedAfterResolve, hr]
    exact enrichProductRecLoop_of_noFault s hp _
  · intro product_id h p hp hr h1 h2 h3
    simp only [get_product_recommendations_route, h1, h2, findProduct, hp, h3,
      targetedAfterResolve, hr]
    exact enrichProductRecLoop_of_noFault s hp _

/-- C4 witness: on the fault-free store, the listing for product "1"
succeeds with `recBroken` silently dropped, and the general listing succeeds
as a plain filterMap. -/
theorem c4_witness :
    get_product_recommendations_route noFaultStore "1" =
      .ok (((sortByScoreDesc (noFaultStore.recs.filter
        (fun d => d.target_product_id == some "1"))).take 10).filterMap
        (enrichProductRecOk noFaultStore))
    ∧ get_recommendations_route noFaultStore 10 none = .ok ([].filterMap
        (enrichGeneralOk noFaultStore)) :=
  ⟨(c4_enrichment_drops_broken_references noFaultStore).2.2.1 "1" 1 prodB
      (fun _ => rfl) rfl (by decide) (by decide),
    (c4_enrichment_drops_broken_references noFaultStore).2.1 10 none [] (by decide)⟩

/-- Unfolding of field lookup on a nonempty document. -/
theorem lookupField_cons (kv : String × DVal) (rest : UDoc) (k : String) :
    lookupField (kv :: rest) k =
      if (kv.1 == k) = true then some kv.2 else lookupField rest k := by
  rfl

/-- Replacing key `k` in place keeps `k` findable with the new value. -/
theorem lookupField_map_replace (k : String) (v : DVal) :
    ∀ d : UDoc, d.any (fun kv => kv.1 == k) = true →
      lookupField (d.map (fun kv => if kv.1 == k then (k, v) else kv)) k = some v
  | [], h => by simp at h
  | kv :: rest, h => by
    rw [List.map_cons]
    by_cases hk : (kv.1 == k) = true
    · rw [if_pos hk, lookupField_cons]
      simp
    · rw [if_neg hk, lookupField_cons, if_neg hk]
      have h2 : rest.any (fun kv => kv.1 == k) = true := by
        rw [List.any_cons] at h
        rcases Bool.or_eq_true_iff.mp h with h1 | h1
        · exact absurd h1 hk
        · exact h1
      exact lookupField_map_replace k v rest h2

/-- Appending a fresh key makes it findable with the appended value. -/
theorem lookupField_append_fresh (k : String) (v : DVal) :
    ∀ d : UDoc, d.any (fun kv => kv.1 == k) = false →
      lookupField (d ++ [(k, v)]) k = some v
  | [], _ => by
    rw [List.nil_append, lookupField_cons]
    simp
  | kv :: rest, h => by
    rw [List.any_cons] at h
    obtain ⟨h1, h2⟩ := Bool.or_eq_false_iff.mp h
    rw [List.cons_append, lookupField_cons, if_neg (by simp [h1])]
    exact lookupField_append_fresh k v rest h2

/-- Python dict assignment makes the assigned key findable with the
assigned value. -/
theorem lookupField_setField_self (d : UDoc) (k : String) (v : DVal) :
    lookupField (setField d k v) k = some v := by
  unfold setField
  split
  · rename_i h
    exact lookupField_map_replace k v d h
  · rename_i h
    simp only [Bool.not_eq_true] at h
    exact lookupField_append_fresh k v d h

/-- Replacing key `k2` in place does not affect lookups of a different key. -/
theorem lookupField_map_ne (k2 k : String) (v2 : DVal) (hne : k2 ≠ k) :
    ∀ d : UDoc,
      lookupField (d.map (fun kv => if kv.1 == k2 then (k2, v2) else kv)) k =
        lookupField d k
  | [] => rfl
  | kv :: rest => by
    have ih := lookupField_map_ne k2 k v2 hne rest
    rw [List.map_cons]
    by_cases hk : (kv.1 == k2) = true
    · rw [if_pos hk, lookupField_cons, lookupField_cons]
      have hkv : kv.1 = k2 := by simpa using hk
      rw [if_neg (by simp [hne]), if_neg (by simp [hkv, hne])]
      exact ih
    · rw [if_neg hk, lookupField_cons, lookupField_cons]
      by_cases hkk : (kv.1 == k) = true
      · rw [if_pos hkk, if_pos hkk]
      · rw [if_neg hkk, if_neg hkk]
        exact ih

/-- Appending an entry with a different key does not affect lookups. -/
theorem lookupField_append_single_ne (k2 k : String) (v2 : DVal) (hne : k2 ≠ k) :
    ∀ d : UDoc, lookupField (d ++ [(k2, v2)]) k = lookupField d k
  | [] => by
    rw [List.nil_append, lookupField_cons, if_neg (by simp [hne])]
  | kv :: rest => by
    have ih := lookupField_append_single_ne k2 k v2 hne rest
    rw [List.cons_append, lookupField_cons, lookupField_cons]
    by_cases hkk : (kv.1 == k) = true
    · rw [if_pos hkk, if_pos hkk]
    · rw [if_neg hkk, if_neg hkk]
      exact ih

/-- Assigning a different key does not affect lookups. -/
theorem lookupField_setField_ne (d : UDoc) (k2 k : String) (v2 : DVal) (hne : k2 ≠ k) :
    lookupField (setField d k2 v2) k = lookupField d k := by
  unfold setField
  split
  · exact lookupField_map_ne k2 k v2 hne d
  · exact lookupField_append_single_ne k2 k v2 hne d

/-- A `$set` patch that never mentions key `k` does not affect lookups of `k`. -/
theorem applySet_lookup_absent (k : String) :
    ∀ (p : UDoc) (d : UDoc), (∀ kv ∈ p, kv.1 ≠ k) →
      lookupField (applySet d p) k = lookupField d k
  | [], _, _ => rfl
  | kv :: p2, d, h => by
    have step : applySet d (kv :: p2) = applySet (setField d kv.1 kv.2) p2 := rfl
    rw [step, applySet_lookup_absent k p2 (setField d kv.1 kv.2)
      (fun x hx => h x (List.mem_cons_of_mem _ hx))]
    exact lookupField_setField_ne d kv.1 k kv.2 (h kv (List.mem_cons_self _ _))

/-- A `$set` patch that mentions key `k`, always with value `v`, leaves the
patched document with `k = v`. -/
theorem applySet_lookup_of_all (k : String) (v : DVal) :
    ∀ (p : UDoc) (d : UDoc), p.any (fun kv => kv.1 == k) = true →
      (∀ kv ∈ p, kv.1 = k → kv.2 = v) →
      lookupField (applySet d p) k = some v
  | [], _, hmem, _ => by simp at hmem
  | (k1, v1) :: p2, d, hmem, hall => by
    have step : applySet d ((k1, v1) :: p2) = applySet (setField d k1 v1) p2 := rfl
    rw [step]
    by_cases hmem2 : p2.any (fun kv => kv.1 == k) = true
    · exact applySet_lookup_of_all k v p2 (setField d k1 v1) hmem2
        (fun kv hkv => hall kv (List.mem_cons_of_mem _ hkv))
    · have hk1 : (k1 == k) = true := by
        rw [List.any_cons] at hmem
        rcases Bool.or_eq_true_iff.mp hmem with h | h
        · exact h
        · exact absurd h hmem2
      have hk1e : k1 = k := by simpa using hk1
      have hv1 : v1 = v := hall (k1, v1) (List.mem_cons_self _ _) hk1e
      have habs : ∀ kv ∈ p2, kv.1 ≠ k := by
        intro kv hkv hkk
        exact hmem2 (List.any_eq_true.mpr ⟨kv, hkv, by simp [hkk]⟩)
      rw [applySet_lookup_absent k p2 _ habs]
      subst hk1e
      subst hv1
      exact lookupField_setField_self d k1 v1

/-- The stamped patch always contains the key. -/
theorem setField_hasKey (d : UDoc) (k : String) (v : DVal) :
    (setField d k v).any (fun kv => kv.1 == k) = true := by
  unfold setField
  split
  · rename_i h
    rcases List.any_eq_true.mp h with ⟨x, hx, hpx⟩
    refine List.any_eq_true.mpr ⟨(k, v), ?_, by simp⟩
    refine List.mem_map.mpr ⟨x, hx, ?_⟩
    rw [if_pos hpx]
  · exact List.any_eq_true.mpr ⟨(k, v), by simp, by simp⟩

/-- Every entry of the stamped patch whose key is the stamped key carries
the stamped value. -/
theorem setField_allKey (d : UDoc) (k : String) (v : DVal) :
    ∀ kv ∈ setField d k v, kv.1 = k → kv.2 = v := by
  unfold setField
  split
  · intro kv hkv hk1
    rcases List.mem_map.mp hkv with ⟨x, hx, hfx⟩
    by_cases hxk : (x.1 == k) = true
    · rw [if_pos hxk] at hfx
      rw [← hfx]
    · rw [if_neg hxk] at hfx
      subst hfx
      exact absurd (by simp [hk1] : (x.1 == k) = true) hxk
  · rename_i h
    simp only [Bool.not_eq_true] at h
    intro kv hkv hk1
    rcases List.mem_append.mp hkv with hin | hin
    · exact absurd (by simp [hk1] : (kv.1 == k) = true)
        (by simpa using List.any_eq_false.mp h kv hin)
    · rw [List.mem_singleton] at hin
      subst hin
      rfl

/-- Mongo `update_one` on an id filter patches the first (unique) match and
leaves everything else unchanged. -/
theorem updateFirst_spec (oid : String) (patch : UDoc) :
    ∀ (pre : List URec) (r0 : URec) (post : List URec),
      (∀ r ∈ pre, r.oid ≠ oid) → r0.oid = oid →
      updateFirst (pre ++ r0 :: post) oid patch =
        pre ++ { r0 with fields := applySet r0.fields patch } :: post
  | [], r0, post, _, hr0 => by simp [updateFirst, hr0]
  | r :: pre2, r0, post, hpre, hr0 => by
    have hne : (r.oid == oid) = false := by
      simpa using hpre r (List.mem_cons_self _ _)
    have ih := updateFirst_spec oid patch pre2 r0 post
      (fun x hx => hpre x (List.mem_cons_of_mem _ hx)) hr0
    simp [updateFirst, hne, ih]

/-- C9: the claim says the update fails with `RecommendationNotFound`
exactly when zero documents matched the id.  For the malformed id `"xyz"`
zero documents match (the collection is empty), yet the operation fails with
the invalid-format error instead of the not-found error. -/
theorem c9_counterexample :
    update_recommendation [] "xyz" [] "T0" =
      .error "Invalid recommendation ID format: xyz"
    ∧ update_recommendation [] "xyz" [] "T0" ≠
        .error "Recommendation not found with ID: xyz"
    ∧ ∀ r, r ∈ ([] : List URec) → r.oid ≠ "xyz" :=
  ⟨by decide, by decide, by simp⟩

/-- C9 (amended): for every recommendation id that is a well-formed ObjectId
string, the update fails with `RecommendationNotFound` exactly when zero
documents match the decoded id, and when a document matches it succeeds,
writing a patch stamped with `updated_at = now` into the first match — so
the updated document's `updated_at` field equals `now`.  Malformed ids fail
earlier with the invalid-format error, before any matching or writing. -/
theorem c9_update_semantics (recsCol : List URec) (recommendation_id : String)
    (update_data : UDoc) (now : String) (oid : String)
    (hid : objectIdOfString recommendation_id = some oid) :
    ((∀ r ∈ recsCol, r.oid ≠ oid) →
      update_recommendation recsCol recommendation_id update_data now =
        .error ("Recommendation not found with ID: " ++ recommendation_id))
    ∧ (∀ pre r0 post, recsCol = pre ++ r0 :: post → (∀ r ∈ pre, r.oid ≠ oid) →
      r0.oid = oid →
      update_recommendation recsCol recommendation_id update_data now =
        .ok (pre ++ { r0 with fields := (applySet r0.fields
          (setField update_data "updated_at" (.vStr now))) } :: post)
      ∧ lookupField (applySet r0.fields (setField update_data "updated_at" (.vStr now)))
          "updated_at" = some (.vStr now)) := by
  constructor
  · intro hnone
    have hany : recsCol.any (fun r => r.oid == oid) = false := by
      rw [List.any_eq_false]
      intro r hrr
      simpa using hnone r hrr
    simp [update_recommendation, hid, hany]
  · intro pre r0 post hcol hpre hr0
    subst hcol
    have hany : ((pre ++ r0 :: post).any (fun r => r.oid == oid)) = true :=
      List.any_eq_true.mpr ⟨r0, by simp, by simp [hr0]⟩
    constructor
    · simp only [update_recommendation, hid, hany, if_pos]
      rw [updateFirst_spec oid _ pre r0 post hpre hr0]
    · exact applySet_lookup_of_all "updated_at" (.vStr now) _ r0.fields
        (setField_hasKey update_data "updated_at" (.vStr now))
        (setField_allKey update_data "updated_at" (.vStr now))

/-- C9 witness: the amended theorem applied to a concrete one-document
collection, checking the patched document and the stamped `updated_at`. -/
theorem c9_witness :
    update_recommendation [urec1] oidA [("reason", .vStr "new")] "T1" =
      .ok [⟨oidA, [("score", .vNum 1), ("reason", .vStr "new"),
        ("updated_at", .vStr "T1")]⟩]
    ∧ lookupField (applySet urec1.fields
        (setField [("reason", .vStr "new")] "updated_at" (.vStr "T1"))) "updated_at" =
      some (.vStr "T1") := by
  have h := (c9_update_semantics [urec1] oidA [("reason", .vStr "new")] "T1" oidA
    (by decide)).2 [] urec1 [] rfl (by simp) rfl
  refine ⟨?_, h.2⟩
  rw [h.1]
  decide

end RecService
